import Mathlib

/-!
Verification of the memory-and-proposal subsystem of the ai-yeast repository.

Part 1 embeds `calculate_decay` from `src/src/test_decay.py`.  Python floats
are modelled as real numbers.  The standard-library call
`datetime.fromisoformat` is external to the repository, so it is abstracted
as a function parameter `fromisoformat : String → Option ℝ`, returning the
parsed instant as seconds since an arbitrary epoch, or `none` when the call
raises (the bare `except` of the source catches that and returns `1.0`).
`datetime.now()` is the explicit parameter `now`, in the same unit.
The `**` operator on floats is modelled by `Real.rpow`; the
`ZeroDivisionError` that Python raises on `age_days / 0.0` (caught by the
bare `except`, yielding `1.0`) is modelled by the explicit
`half_life_days = 0` branch placed exactly where the source divides.
-/

/-- Embeds `MEMORY_DECAY_HALF_LIFE_DAYS = 3` from `src/src/test_decay.py`. -/
def MEMORY_DECAY_HALF_LIFE_DAYS : ℝ := 3

/-- Embeds `calculate_decay` from `src/src/test_decay.py` lines 6-20.
The source computes `age_days = (datetime.now() - created).total_seconds() / 86400.0`,
returns `1.0` when `age_days < 0`, otherwise returns
`max(0.0, min(1.0, 0.5 ** (age_days / half_life_days)))`; any exception
(parse failure of `created_at`, or division by a zero half-life) is caught
by the bare `except` and yields `1.0`. -/
noncomputable def calculate_decay (fromisoformat : String → Option ℝ)
    (now : ℝ) (created_at : String) (half_life_days : ℝ) : ℝ :=
  match fromisoformat created_at with
  | none => 1
  | some created =>
    let age_days : ℝ := (now - created) / 86400
    if age_days < 0 then 1
    else if half_life_days = 0 then 1
    else max 0 (min 1 ((1 / 2 : ℝ) ^ (age_days / half_life_days)))

/-!
Part 2: the Proposal Extractor and the Proposal Store.  The file that
implements them (`yeast-agent`) is not part of the repository snapshot; only
its test harness `src/archive/phase-3/test_proposals.py` is.  Following the
spec (sections 4.2, 4.3, 6), the missing functions are modelled from the
spec's words.  JSON parsing (`json.loads`) is an external library call and is
abstracted as a parameter `parseJson`; likewise `uuid` generation and the
wall clock for the store.
-/

/-- Modelled from the spec: the shape of a parsed JSON document (the output
of the external `json.loads`), as used by the extractor and the store:
an opaque structured value, "a generic mapping/JSON-value type". -/
inductive JsonValue where
  | null
  | bool (b : Bool)
  | num (q : ℚ)
  | str (s : String)
  | arr (elems : List JsonValue)
  | obj (fields : List (String × JsonValue))

/-- Helper: one character of incidental whitespace. -/
def isWhitespaceChar (c : Char) : Bool :=
  c == ' ' || c == '\t' || c == '\n' || c == '\r'

/-- Helper: drop leading and trailing whitespace characters. -/
def trimChars (cs : List Char) : List Char :=
  ((cs.dropWhile isWhitespaceChar).reverse.dropWhile isWhitespaceChar).reverse

/-- Helper: trim incidental surrounding whitespace of a string. -/
def strTrim (s : String) : String := String.mk (trimChars s.data)

/-- Helper: split a character list into newline-separated lines. -/
def splitLinesAux : List Char → List Char → List String
  | [], acc => [String.mk acc.reverse]
  | c :: cs, acc =>
    if c = '\n' then String.mk acc.reverse :: splitLinesAux cs []
    else splitLinesAux cs (c :: acc)

/-- Helper: split a string into its lines. -/
def splitLines (s : String) : List String := splitLinesAux s.data []

/-- Helper: join lines back with newlines. -/
def joinLines : List String → String
  | [] => ""
  | [l] => l
  | l :: l2 :: ls => l ++ "\n" ++ joinLines (l2 :: ls)

/-- Modelled from the spec: look up a top-level key of a parsed JSON object;
a non-object or a missing key yields `none`. -/
def lookupField (k : String) : List (String × JsonValue) → Option JsonValue
  | [] => none
  | (k2, v) :: rest => if k2 = k then some v else lookupField k rest

/-- Modelled from the spec: the `proposal`-key lookup on a parsed JSON value. -/
def lookupKey (k : String) : JsonValue → Option JsonValue
  | JsonValue.obj fields => lookupField k fields
  | _ => none

/-- Modelled from the spec: scan lines for the closing fence delimiter,
returning the block body and the lines after the fence. -/
def findClose : List String → Option (List String × List String)
  | [] => none
  | l :: ls =>
    if strTrim l = "```" then some ([], ls)
    else
      match findClose ls with
      | none => none
      | some (body, post) => some (l :: body, post)

/-- Modelled from the spec: scan lines for the first fenced block labeled as
JSON (a line introducing a `json` block and a closing delimiter), returning
the lines before the block, the block body and the lines after it. -/
def findBlock : List String → Option (List String × List String × List String)
  | [] => none
  | l :: ls =>
    if strTrim l = "```json" then
      match findClose ls with
      | none => none
      | some (body, post) => some ([], body, post)
    else
      match findBlock ls with
      | none => none
      | some (pre, body, post) => some (l :: pre, body, post)

/-- Modelled from the spec: `extract_proposal(response_text)` from the
missing `yeast-agent` file.  Scans the response for a fenced JSON block; if
no block is found, or its contents fail to parse as JSON, or the parsed JSON
lacks a `proposal` key, returns the original text unchanged and no proposal;
otherwise removes the fenced block (delimiters and contents), trims
incidental surrounding whitespace, and returns the remaining prose alongside
the parsed `proposal` value. -/
def extract_proposal (parseJson : String → Option JsonValue)
    (response_text : String) : String × Option JsonValue :=
  match findBlock (splitLines response_text) with
  | none => (response_text, none)
  | some (pre, body, post) =>
    match parseJson (joinLines body) with
    | none => (response_text, none)
    | some j =>
      match lookupKey ("proposal") j with
      | none => (response_text, none)
      | some p => (strTrim (joinLines (pre ++ post)), some p)

/-- Modelled from the spec: the input shape handed to `save_proposal`:
`type`, `reason` and an opaque `action` mapping. -/
structure ProposalInput where
  type : String
  reason : String
  action : JsonValue

/-- Modelled from the spec: a persisted proposal record with all of the
lifecycle fields populated (`id`, `type`, `reason`, `action`, `status`,
`timestamp`). -/
structure Proposal where
  id : String
  type : String
  reason : String
  action : JsonValue
  status : String
  timestamp : String

/-- Modelled from the spec: the store document is keyed by the constant
top-level field `pending_proposals` holding an ordered sequence of Proposal
records; this type is that sequence. -/
abbrev Document := List Proposal

/-- Modelled from the spec: `load_json(PROPOSALS_FILE)` returns the stored
document, treating an absent or unreadable file (modelled by `none`) as the
empty document, never as an error. -/
def load_document : Option Document → Document
  | none => []
  | some d => d

/-- Modelled from the spec: `save_proposal(proposal)` loads the current
document, appends a new record with a generated unique `id`,
`status = "pending"` and the wall-clock `timestamp`, preserving all
previously stored records unchanged, and writes the document back.  The
external `uuid` generator and the clock are the parameters `genId` and
`now`; the function returns the written document and the persisted record. -/
def save_proposal (genId : String) (now : String) (p : ProposalInput)
    (store : Option Document) : Document × Proposal :=
  let record : Proposal :=
    { id := genId, type := p.type, reason := p.reason, action := p.action,
      status := "pending", timestamp := now }
  (load_document store ++ [record], record)

/-- Helper: unfolding equation of `calculate_decay` on a successful parse. -/
theorem calculate_decay_some (fromisoformat : String → Option ℝ)
    (now created : ℝ) (created_at : String) (half_life_days : ℝ)
    (hparse : fromisoformat created_at = some created) :
    calculate_decay fromisoformat now created_at half_life_days
      = (if (now - created) / 86400 < 0 then 1
         else if half_life_days = 0 then 1
         else max 0 (min 1 ((1 / 2 : ℝ) ^ (((now - created) / 86400) / half_life_days)))) := by
  unfold calculate_decay
  rw [hparse]

/-- Helper: on a successful parse, non-negative age and positive half-life,
`calculate_decay` reaches the clamped power expression. -/
theorem calculate_decay_eq_clamp (fromisoformat : String → Option ℝ)
    (now created : ℝ) (created_at : String) (half_life_days : ℝ)
    (hparse : fromisoformat created_at = some created)
    (hage : 0 ≤ now - created) (hhalf : 0 < half_life_days) :
    calculate_decay fromisoformat now created_at half_life_days
      = max 0 (min 1 ((1 / 2 : ℝ) ^ (((now - created) / 86400) / half_life_days))) := by
  rw [calculate_decay_some fromisoformat now created created_at half_life_days hparse]
  have hnn : (0 : ℝ) ≤ (now - created) / 86400 := by positivity
  rw [if_neg (not_lt.mpr hnn), if_neg hhalf.ne']

/-- Helper: the clamp is a no-op on `(1/2) ^ e` for a non-negative exponent. -/
theorem clamp_half_rpow (e : ℝ) (he : 0 ≤ e) :
    max 0 (min 1 ((1 / 2 : ℝ) ^ e)) = (1 / 2 : ℝ) ^ e := by
  rw [min_eq_right (Real.rpow_le_one (by norm_num) (by norm_num) he),
    max_eq_right (Real.rpow_nonneg (by norm_num) e)]

/-- C1: for every `created_at` that parses, with non-negative age and positive
half-life, `calculate_decay` returns exactly `0.5 ** (age_days / half_life_days)`
clamped into `[0, 1]`, where `age_days = (now - created) / 86400` is the age in
fractional days; moreover the clamp is a no-op there, so the result is the
power itself. -/
theorem C1_decay_formula (fromisoformat : String → Option ℝ)
    (now created : ℝ) (created_at : String) (half_life_days : ℝ)
    (hparse : fromisoformat created_at = some created)
    (hage : 0 ≤ now - created) (hhalf : 0 < half_life_days) :
    calculate_decay fromisoformat now created_at half_life_days
      = max 0 (min 1 ((1 / 2 : ℝ) ^ (((now - created) / 86400) / half_life_days)))
    ∧ calculate_decay fromisoformat now created_at half_life_days
      = (1 / 2 : ℝ) ^ (((now - created) / 86400) / half_life_days) := by
  have h1 := calculate_decay_eq_clamp fromisoformat now created created_at
    half_life_days hparse hage hhalf
  have he : (0 : ℝ) ≤ ((now - created) / 86400) / half_life_days := by positivity
  exact ⟨h1, h1.trans (clamp_half_rpow _ he)⟩

/-- Witness for C1: a memory 12 hours old (43200 seconds) with a 3-day
half-life. -/
theorem C1_decay_formula_witness :
    (fun _ : String => some (0 : ℝ)) "1970-01-01T00:00:00" = some 0
    ∧ (0 : ℝ) ≤ 43200 - 0 ∧ (0 : ℝ) < 3
    ∧ (calculate_decay (fun _ => some 0) 43200 "1970-01-01T00:00:00" 3
        = max 0 (min 1 ((1 / 2 : ℝ) ^ ((((43200 : ℝ) - 0) / 86400) / 3)))
      ∧ calculate_decay (fun _ => some 0) 43200 "1970-01-01T00:00:00" 3
        = (1 / 2 : ℝ) ^ ((((43200 : ℝ) - 0) / 86400) / 3)) :=
  ⟨rfl, by norm_num, by norm_num,
    C1_decay_formula _ _ _ _ _ rfl (by norm_num) (by norm_num)⟩

/-- C2: when `created_at` fails to parse (any exception inside the function),
`calculate_decay` returns exactly `1.0` instead of raising. -/
theorem C2_decay_parse_failure (fromisoformat : String → Option ℝ)
    (now : ℝ) (created_at : String) (half_life_days : ℝ)
    (hparse : fromisoformat created_at = none) :
    calculate_decay fromisoformat now created_at half_life_days = 1 := by
  unfold calculate_decay
  rw [hparse]

/-- Witness for C2: a parser that rejects the malformed input string. -/
theorem C2_decay_parse_failure_witness :
    (fun _ : String => (none : Option ℝ)) "not-a-timestamp" = none
    ∧ calculate_decay (fun _ => none) 0 "not-a-timestamp" 3 = 1 :=
  ⟨rfl, C2_decay_parse_failure _ _ _ _ rfl⟩

/-- C3: a valid timestamp strictly in the future (negative age) with positive
half-life yields exactly `1.0`. -/
theorem C3_decay_future (fromisoformat : String → Option ℝ)
    (now created : ℝ) (created_at : String) (half_life_days : ℝ)
    (hparse : fromisoformat created_at = some created)
    (hfuture : now < created) (_hhalf : 0 < half_life_days) :
    calculate_decay fromisoformat now created_at half_life_days = 1 := by
  rw [calculate_decay_some fromisoformat now created created_at half_life_days hparse]
  have hneg : (now - created) / 86400 < 0 :=
    div_neg_of_neg_of_pos (sub_neg.mpr hfuture) (by norm_num)
  rw [if_pos hneg]

/-- Witness for C3: an entry dated one day after the current clock. -/
theorem C3_decay_future_witness :
    (fun _ : String => some (86400 : ℝ)) "1970-01-02T00:00:00" = some 86400
    ∧ (0 : ℝ) < 86400 ∧ (0 : ℝ) < 3
    ∧ calculate_decay (fun _ => some 86400) 0 "1970-01-02T00:00:00" 3 = 1 :=
  ⟨rfl, by norm_num, by norm_num,
    C3_decay_future _ _ _ _ _ rfl (by norm_num) (by norm_num)⟩

/-- C4: for a fixed positive half-life the weight is monotonically
non-increasing in age: if both ages are non-negative and the age of the
second timestamp is at least the age of the first, the second weight is at
most the first. -/
theorem C4_decay_monotone (fromisoformat : String → Option ℝ)
    (now c1 c2 : ℝ) (s1 s2 : String) (half_life_days : ℝ)
    (hp1 : fromisoformat s1 = some c1) (hp2 : fromisoformat s2 = some c2)
    (hhalf : 0 < half_life_days)
    (hage1 : 0 ≤ now - c1) (h12 : now - c1 ≤ now - c2) :
    calculate_decay fromisoformat now s2 half_life_days
      ≤ calculate_decay fromisoformat now s1 half_life_days := by
  have hage2 : 0 ≤ now - c2 := hage1.trans h12
  rw [calculate_decay_eq_clamp fromisoformat now c1 s1 half_life_days hp1 hage1 hhalf,
    calculate_decay_eq_clamp fromisoformat now c2 s2 half_life_days hp2 hage2 hhalf]
  refine max_le_max le_rfl (min_le_min le_rfl ?_)
  refine Real.rpow_le_rpow_of_exponent_ge (by norm_num) (by norm_num) ?_
  gcongr

/-- Witness for C4: ages one day and two days, 3-day half-life. -/
theorem C4_decay_monotone_witness :
    (fun _ : String => some (0 : ℝ)) "1970-01-01T00:00:00" = some 0
    ∧ (fun _ : String => some (0 : ℝ)) "1970-01-01T00:00:00" = some 0
    ∧ (0 : ℝ) < 3 ∧ (0 : ℝ) ≤ 86400 - 0 ∧ (86400 : ℝ) - 0 ≤ 86400 - 0
    ∧ calculate_decay (fun _ => some 0) 86400 "1970-01-01T00:00:00" 3
        ≤ calculate_decay (fun _ => some 0) 86400 "1970-01-01T00:00:00" 3 :=
  ⟨rfl, rfl, by norm_num, by norm_num, by norm_num,
    C4_decay_monotone _ _ _ _ _ _ _ rfl rfl (by norm_num) (by norm_num)
      (by norm_num)⟩

/-- C5: at age zero the weight is exactly `1.0`, and at age equal to the
half-life the weight is `0.5` within the 1% tolerance. -/
theorem C5_decay_anchor_values (fromisoformat : String → Option ℝ)
    (now c0 chl : ℝ) (s0 shl : String) (half_life_days : ℝ)
    (hhalf : 0 < half_life_days)
    (hp0 : fromisoformat s0 = some c0) (h0 : now - c0 = 0)
    (hphl : fromisoformat shl = some chl)
    (hhl : (now - chl) / 86400 = half_life_days) :
    calculate_decay fromisoformat now s0 half_life_days = 1
    ∧ |calculate_decay fromisoformat now shl half_life_days - 1 / 2| < 1 / 100 := by
  constructor
  · rw [calculate_decay_eq_clamp fromisoformat now c0 s0 half_life_days hp0
      (le_of_eq h0.symm) hhalf, h0]
    norm_num [Real.rpow_zero]
  · have hagehl : 0 ≤ now - chl := by
      nlinarith [hhl, hhalf]
    rw [calculate_decay_eq_clamp fromisoformat now chl shl half_life_days hphl
      hagehl hhalf, hhl, div_self hhalf.ne']
    rw [Real.rpow_one]
    norm_num

/-- Witness for C5: `now` is three days after the epoch; the string `"A"`
parses to `now` itself (age zero) and the string `"B"` parses to the epoch
(age exactly one 3-day half-life). -/
theorem C5_decay_anchor_values_witness :
    (0 : ℝ) < 3
    ∧ (fun s : String => if s = "A" then some (259200 : ℝ) else some 0) "A"
        = some 259200
    ∧ (259200 : ℝ) - 259200 = 0
    ∧ (fun s : String => if s = "A" then some (259200 : ℝ) else some 0) "B"
        = some 0
    ∧ ((259200 : ℝ) - 0) / 86400 = 3
    ∧ (calculate_decay
          (fun s => if s = "A" then some (259200 : ℝ) else some 0) 259200 "A" 3
          = 1
      ∧ |calculate_decay
            (fun s => if s = "A" then some (259200 : ℝ) else some 0) 259200 "B" 3
            - 1 / 2| < 1 / 100) :=
  ⟨by norm_num, rfl, by norm_num, rfl, by norm_num,
    C5_decay_anchor_values _ 259200 259200 0 "A" "B" 3 (by norm_num) rfl
      (by norm_num) rfl (by norm_num)⟩

/-- C10: `calculate_decay` is total and always lands in `[0, 1]`: for every
parser outcome, every clock value and every half-life (zero and negative
included), the result is bounded between `0` and `1`. -/
theorem C10_decay_total_bounded (fromisoformat : String → Option ℝ)
    (now : ℝ) (created_at : String) (half_life_days : ℝ) :
    0 ≤ calculate_decay fromisoformat now created_at half_life_days
    ∧ calculate_decay fromisoformat now created_at half_life_days ≤ 1 := by
  unfold calculate_decay
  cases fromisoformat created_at with
  | none => norm_num
  | some created =>
    simp only
    split
    · norm_num
    · split
      · norm_num
      · constructor
        · exact le_max_left 0 _
        · exact max_le (by norm_num) (min_le_left 1 _)

/-- Helper: `findClose` locates the first closing fence. -/
theorem findClose_append (body post : List String) (cl : String)
    (hbody : ∀ l ∈ body, strTrim l ≠ "```") (hcl : strTrim cl = "```") :
    findClose (body ++ cl :: post) = some (body, post) := by
  induction body with
  | nil => simp [findClose, hcl]
  | cons l ls ih =>
    have hl : strTrim l ≠ "```" := hbody l (by simp)
    have ihh := ih (fun x hx => hbody x (by simp [hx]))
    simp [findClose, hl, ihh]

/-- Helper: `findClose` finds nothing when no line is a closing fence. -/
theorem findClose_none (ls : List String)
    (h : ∀ l ∈ ls, strTrim l ≠ "```") : findClose ls = none := by
  induction ls with
  | nil => simp [findClose]
  | cons l ls ih =>
    have hl : strTrim l ≠ "```" := h l (by simp)
    have ihh := ih (fun x hx => h x (by simp [hx]))
    simp [findClose, hl, ihh]

/-- Helper: `findBlock` locates the first fenced JSON block. -/
theorem findBlock_spec (pre body post : List String) (op cl : String)
    (hpre : ∀ l ∈ pre, strTrim l ≠ "```json")
    (hop : strTrim op = "```json")
    (hbody : ∀ l ∈ body, strTrim l ≠ "```")
    (hcl : strTrim cl = "```") :
    findBlock (pre ++ op :: (body ++ cl :: post)) = some (pre, body, post) := by
  induction pre with
  | nil =>
    simp [findBlock, hop, findClose_append body post cl hbody hcl]
  | cons l ls ih =>
    have hl : strTrim l ≠ "```json" := hpre l (by simp)
    have ihh := ih (fun x hx => hpre x (by simp [hx]))
    simp [findBlock, hl, ihh]

/-- Helper: `findBlock` finds nothing when no line opens a JSON fence. -/
theorem findBlock_none (ls : List String)
    (h : ∀ l ∈ ls, strTrim l ≠ "```json") : findBlock ls = none := by
  induction ls with
  | nil => simp [findBlock]
  | cons l ls ih =>
    have hl : strTrim l ≠ "```json" := h l (by simp)
    have ihh := ih (fun x hx => h x (by simp [hx]))
    simp [findBlock, hl, ihh]

/-- Helper: `findBlock` finds nothing when the opening fence is never
closed. -/
theorem findBlock_unclosed (pre rest : List String) (op : String)
    (hpre : ∀ l ∈ pre, strTrim l ≠ "```json")
    (hop : strTrim op = "```json")
    (hrest : ∀ l ∈ rest, strTrim l ≠ "```") :
    findBlock (pre ++ op :: rest) = none := by
  induction pre with
  | nil => simp [findBlock, hop, findClose_none rest hrest]
  | cons l ls ih =>
    have hl : strTrim l ≠ "```json" := hpre l (by simp)
    have ihh := ih (fun x hx => hpre x (by simp [hx]))
    simp [findBlock, hl, ihh]

/-- C6: for a response containing a fenced JSON block whose contents parse
as JSON with a top-level `proposal` key, `extract_proposal` returns the
clean text with the fenced block (delimiters and contents) removed —
retaining exactly the prose lines outside the block, in original order, with
the surrounding whitespace trimmed — paired with exactly the embedded
JSON's `proposal` value. -/
theorem C6_extract_proposal_success (parseJson : String → Option JsonValue)
    (response_text : String) (pre body post : List String) (op cl : String)
    (j p : JsonValue)
    (hsplit : splitLines response_text = pre ++ op :: (body ++ cl :: post))
    (hpre : ∀ l ∈ pre, strTrim l ≠ "```json")
    (hop : strTrim op = "```json")
    (hbody : ∀ l ∈ body, strTrim l ≠ "```")
    (hcl : strTrim cl = "```")
    (hparse : parseJson (joinLines body) = some j)
    (hkey : lookupKey ("proposal") j = some p) :
    extract_proposal parseJson response_text
      = (strTrim (joinLines (pre ++ post)), some p) := by
  unfold extract_proposal
  rw [hsplit, findBlock_spec pre body post op cl hpre hop hbody hcl]
  simp [hparse, hkey]

/-- C7: `extract_proposal` degrades to the original text and no proposal in
every failure mode: when no line opens a JSON fence, when a fence opens but
never closes, when the block contents fail to parse as JSON, and when the
parsed JSON lacks a `proposal` key; being a total function, it never
throws. -/
theorem C7_extract_proposal_failure (parseJson : String → Option JsonValue)
    (response_text : String) :
    ((∀ l ∈ splitLines response_text, strTrim l ≠ "```json") →
      extract_proposal parseJson response_text = (response_text, none))
    ∧ (∀ pre rest : List String, ∀ op : String,
        splitLines response_text = pre ++ op :: rest →
        (∀ l ∈ pre, strTrim l ≠ "```json") → strTrim op = "```json" →
        (∀ l ∈ rest, strTrim l ≠ "```") →
        extract_proposal parseJson response_text = (response_text, none))
    ∧ (∀ pre body post : List String, ∀ op cl : String,
        splitLines response_text = pre ++ op :: (body ++ cl :: post) →
        (∀ l ∈ pre, strTrim l ≠ "```json") → strTrim op = "```json" →
        (∀ l ∈ body, strTrim l ≠ "```") → strTrim cl = "```" →
        parseJson (joinLines body) = none →
        extract_proposal parseJson response_text = (response_text, none))
    ∧ (∀ pre body post : List String, ∀ op cl : String, ∀ j : JsonValue,
        splitLines response_text = pre ++ op :: (body ++ cl :: post) →
        (∀ l ∈ pre, strTrim l ≠ "```json") → strTrim op = "```json" →
        (∀ l ∈ body, strTrim l ≠ "```") → strTrim cl = "```" →
        parseJson (joinLines body) = some j →
        lookupKey ("proposal") j = none →
        extract_proposal parseJson response_text = (response_text, none)) := by
  refine ⟨?_, ?_, ?_, ?_⟩
  · intro h
    unfold extract_proposal
    rw [findBlock_none _ h]
  · intro pre rest op hsplit hpre hop hrest
    unfold extract_proposal
    rw [hsplit, findBlock_unclosed pre rest op hpre hop hrest]
  · intro pre body post op cl hsplit hpre hop hbody hcl hparse
    unfold extract_proposal
    rw [hsplit, findBlock_spec pre body post op cl hpre hop hbody hcl]
    simp [hparse]
  · intro pre body post op cl j hsplit hpre hop hbody hcl hparse hkey
    unfold extract_proposal
    rw [hsplit, findBlock_spec pre body post op cl hpre hop hbody hcl]
    simp [hparse, hkey]

/-- Witness for C6: the concrete scenario of the spec, with the external
JSON parser returning the proposal object for the block payload. -/
theorem C6_extract_proposal_success_witness :
    splitLines ("I will adjust my tone.\n```json\nPAYLOAD\n```\nDone.")
      = ["I will adjust my tone."]
        ++ "```json" :: (["PAYLOAD"] ++ "```" :: ["Done."])
    ∧ (∀ l ∈ ["I will adjust my tone."], strTrim l ≠ "```json")
    ∧ strTrim ("```json") = "```json"
    ∧ (∀ l ∈ ["PAYLOAD"], strTrim l ≠ "```")
    ∧ strTrim ("```") = "```"
    ∧ (fun s : String =>
        if s = "PAYLOAD"
        then some (JsonValue.obj [("proposal", JsonValue.str ("P"))])
        else none) (joinLines ["PAYLOAD"])
      = some (JsonValue.obj [("proposal", JsonValue.str ("P"))])
    ∧ lookupKey ("proposal") (JsonValue.obj [("proposal", JsonValue.str ("P"))])
      = some (JsonValue.str ("P"))
    ∧ extract_proposal
        (fun s =>
          if s = "PAYLOAD"
          then some (JsonValue.obj [("proposal", JsonValue.str ("P"))])
          else none)
        ("I will adjust my tone.\n```json\nPAYLOAD\n```\nDone.")
      = (strTrim (joinLines (["I will adjust my tone."] ++ ["Done."])),
         some (JsonValue.str ("P"))) :=
  ⟨by decide, by decide, by decide, by decide, by decide, rfl, rfl,
    C6_extract_proposal_success _ _ ["I will adjust my tone."] ["PAYLOAD"]
      ["Done."] "```json" "```" _ _ (by decide) (by decide) (by decide)
      (by decide) (by decide) rfl rfl⟩

/-- Witness for C7: the concrete no-fence scenario of the spec. -/
theorem C7_extract_proposal_failure_witness :
    (∀ l ∈ splitLines ("Just a normal response."), strTrim l ≠ "```json")
    ∧ extract_proposal (fun _ => none) ("Just a normal response.")
      = ("Just a normal response.", none) :=
  ⟨by decide, (C7_extract_proposal_failure (fun _ => none)
      ("Just a normal response.")).1 (by decide)⟩

/-- C8: one `save_proposal` call on an empty or absent store yields a
document with exactly one entry under `pending_proposals`, and that entry —
the returned record — has status `"pending"`, a non-empty `id` and the
assigned timestamp. -/
theorem C8_save_first_entry (genId now : String) (p : ProposalInput)
    (store : Option Document)
    (hempty : load_document store = []) (hid : genId ≠ "") :
    (save_proposal genId now p store).1.length = 1
    ∧ (save_proposal genId now p store).1 = [(save_proposal genId now p store).2]
    ∧ (save_proposal genId now p store).2.status = "pending"
    ∧ (save_proposal genId now p store).2.id ≠ ""
    ∧ (save_proposal genId now p store).2.timestamp = now := by
  refine ⟨?_, ?_, ?_, ?_, ?_⟩ <;> simp [save_proposal, hempty, hid]

/-- Witness for C8: first save into an absent store. -/
theorem C8_save_first_entry_witness :
    load_document none = []
    ∧ ("uuid-0001" : String) ≠ ""
    ∧ ((save_proposal ("uuid-0001") ("2025-01-01T00:00:00")
          (ProposalInput.mk ("semantic_refinement") ("Test")
            (JsonValue.obj [])) none).1.length = 1
      ∧ (save_proposal ("uuid-0001") ("2025-01-01T00:00:00")
          (ProposalInput.mk ("semantic_refinement") ("Test")
            (JsonValue.obj [])) none).1
          = [(save_proposal ("uuid-0001") ("2025-01-01T00:00:00")
              (ProposalInput.mk ("semantic_refinement") ("Test")
                (JsonValue.obj [])) none).2]
      ∧ (save_proposal ("uuid-0001") ("2025-01-01T00:00:00")
          (ProposalInput.mk ("semantic_refinement") ("Test")
            (JsonValue.obj [])) none).2.status = "pending"
      ∧ (save_proposal ("uuid-0001") ("2025-01-01T00:00:00")
          (ProposalInput.mk ("semantic_refinement") ("Test")
            (JsonValue.obj [])) none).2.id ≠ ""
      ∧ (save_proposal ("uuid-0001") ("2025-01-01T00:00:00")
          (ProposalInput.mk ("semantic_refinement") ("Test")
            (JsonValue.obj [])) none).2.timestamp = "2025-01-01T00:00:00") :=
  ⟨rfl, by decide,
    C8_save_first_entry ("uuid-0001") ("2025-01-01T00:00:00")
      (ProposalInput.mk ("semantic_refinement") ("Test") (JsonValue.obj []))
      none rfl (by decide)⟩

/-- C9: two `save_proposal` calls in sequence yield a two-entry sequence
whose first entry is the first persisted record, unchanged with every field
intact, the two records having distinct `id`s; and in general a save on any
existing document leaves every previously stored record in place (the
appended document starts with the old one). -/
theorem C9_save_append_frame (id1 t1 id2 t2 : String) (p1 p2 : ProposalInput)
    (store : Option Document)
    (hempty : load_document store = []) (hid : id1 ≠ id2) :
    ((save_proposal id2 t2 p2 (some (save_proposal id1 t1 p1 store).1)).1).length = 2
    ∧ (save_proposal id2 t2 p2 (some (save_proposal id1 t1 p1 store).1)).1
        = [(save_proposal id1 t1 p1 store).2,
           (save_proposal id2 t2 p2 (some (save_proposal id1 t1 p1 store).1)).2]
    ∧ (save_proposal id1 t1 p1 store).2.id
        ≠ (save_proposal id2 t2 p2 (some (save_proposal id1 t1 p1 store).1)).2.id
    ∧ ∀ d : Document, ∀ g t : String, ∀ q : ProposalInput,
        ((save_proposal g t q (some d)).1).take d.length = d := by
  have hsome : ∀ d : Document, load_document (some d) = d := fun _ => rfl
  refine ⟨?_, ?_, ?_, ?_⟩
  · simp [save_proposal, hempty, hsome]
  · simp [save_proposal, hempty, hsome]
  · simp [save_proposal, hid]
  · intro d g t q
    simp [save_proposal, hsome, List.take_left]

/-- Witness for C9: two saves with distinct generated identifiers into an
absent store. -/
theorem C9_save_append_frame_witness :
    load_document none = []
    ∧ ("uuid-0001" : String) ≠ "uuid-0002"
    ∧ (((save_proposal ("uuid-0002") ("2025-01-02T00:00:00")
          (ProposalInput.mk ("tension_adjustment") ("Second") (JsonValue.obj []))
          (some (save_proposal ("uuid-0001") ("2025-01-01T00:00:00")
            (ProposalInput.mk ("semantic_refinement") ("First")
              (JsonValue.obj [])) none).1)).1).length = 2
      ∧ (save_proposal ("uuid-0002") ("2025-01-02T00:00:00")
          (ProposalInput.mk ("tension_adjustment") ("Second") (JsonValue.obj []))
          (some (save_proposal ("uuid-0001") ("2025-01-01T00:00:00")
            (ProposalInput.mk ("semantic_refinement") ("First")
              (JsonValue.obj [])) none).1)).1
          = [(save_proposal ("uuid-0001") ("2025-01-01T00:00:00")
              (ProposalInput.mk ("semantic_refinement") ("First")
                (JsonValue.obj [])) none).2,
             (save_proposal ("uuid-0002") ("2025-01-02T00:00:00")
              (ProposalInput.mk ("tension_adjustment") ("Second")
                (JsonValue.obj []))
              (some (save_proposal ("uuid-0001") ("2025-01-01T00:00:00")
                (ProposalInput.mk ("semantic_refinement") ("First")
                  (JsonValue.obj [])) none).1)).2]
      ∧ (save_proposal ("uuid-0001") ("2025-01-01T00:00:00")
          (ProposalInput.mk ("semantic_refinement") ("First")
            (JsonValue.obj [])) none).2.id
          ≠ (save_proposal ("uuid-0002") ("2025-01-02T00:00:00")
              (ProposalInput.mk ("tension_adjustment") ("Second")
                (JsonValue.obj []))
              (some (save_proposal ("uuid-0001") ("2025-01-01T00:00:00")
                (ProposalInput.mk ("semantic_refinement") ("First")
                  (JsonValue.obj [])) none).1)).2.id
      ∧ ∀ d : Document, ∀ g t : String, ∀ q : ProposalInput,
          ((save_proposal g t q (some d)).1).take d.length = d) :=
  ⟨rfl, by decide,
    C9_save_append_frame ("uuid-0001") ("2025-01-01T00:00:00") ("uuid-0002")
      ("2025-01-02T00:00:00")
      (ProposalInput.mk ("semantic_refinement") ("First") (JsonValue.obj []))
      (ProposalInput.mk ("tension_adjustment") ("Second") (JsonValue.obj []))
      none rfl (by decide)⟩
